import Mathlib

/-!
Verification of the AQI forecasting repository.

The development shallowly embeds the two Python source files:

* `src/app.py`, function `show_future` — the forecasting pipeline:
  data cleaning, 2-hour gap cutoff, 10-minute resampling with linear
  interpolation, lag/rolling feature construction, the six-step model
  loop with bias anchoring, clamping and rounding, plus the surrounding
  error handling (model artifact loading, empty store, cold start).
* `src/devices/main.py` — the firmware helpers `mq135_to_pm25` and
  `calculate_aqi_pm25`, and the hourly accumulate/flush loop.

Timestamps are modelled as integer minutes (pandas timestamps are
total orders with 10-minute flooring; integer minutes capture every
behaviour the claims quantify over).  Python floats are modelled as
rationals; `round` is Python's round-half-to-even.
-/

/-! ## Python numeric primitives -/

/-- Python's `round(x)`: nearest integer, ties to even. -/
def pythonRound (q : ℚ) : ℤ :=
  if q - ⌊q⌋ < 1/2 then ⌊q⌋
  else if 1/2 < q - ⌊q⌋ then ⌊q⌋ + 1
  else if Even ⌊q⌋ then ⌊q⌋ else ⌊q⌋ + 1

/-- Python's `round(x, 1)` (used for the displayed forecast values). -/
def round1 (q : ℚ) : ℚ := (pythonRound (10 * q) : ℚ) / 10

/-- Python's `round(x, 2)` (used for the hourly temperature/humidity means). -/
def pyRound2 (q : ℚ) : ℚ := (pythonRound (100 * q) : ℚ) / 100

/-- Python's `int(x)` on a float: truncation toward zero. -/
def pyInt (q : ℚ) : ℤ := if 0 ≤ q then ⌊q⌋ else ⌈q⌉

theorem pythonRound_ge (q : ℚ) : q - 1/2 ≤ (pythonRound q : ℚ) := by
  unfold pythonRound
  have h1 : ((⌊q⌋ : ℤ) : ℚ) ≤ q := Int.floor_le q
  have h2 : q < (⌊q⌋ : ℤ) + 1 := Int.lt_floor_add_one q
  split_ifs with hlt hgt hev <;> push_cast <;> linarith

theorem pythonRound_le (q : ℚ) : (pythonRound q : ℚ) ≤ q + 1/2 := by
  unfold pythonRound
  have h1 : ((⌊q⌋ : ℤ) : ℚ) ≤ q := Int.floor_le q
  have h2 : q < (⌊q⌋ : ℤ) + 1 := Int.lt_floor_add_one q
  split_ifs with hlt hgt hev <;> push_cast <;> linarith

theorem round1_nonneg (q : ℚ) (hq : 0 ≤ q) : 0 ≤ round1 q := by
  unfold round1
  have h := pythonRound_ge (10 * q)
  have hn : (0 : ℤ) ≤ pythonRound (10 * q) := by
    by_contra hc
    push_neg at hc
    have : pythonRound (10 * q) ≤ -1 := by omega
    have : ((pythonRound (10 * q) : ℤ) : ℚ) ≤ -1 := by exact_mod_cast this
    linarith
  have : (0 : ℚ) ≤ (pythonRound (10 * q) : ℚ) := by exact_mod_cast hn
  positivity

/-! ## Device firmware conversion helpers (src/devices/main.py) -/

/-- `mq135_to_pm25(raw)`: `((raw - 0) / (4095 - 0)) * 200`. -/
def mq135_to_pm25 (raw : ℤ) : ℚ := (((raw : ℚ) - 0) / (4095 - 0)) * 200

/-- `calculate_aqi_pm25(pm25)`: piecewise EPA-style breakpoints, capped at 150. -/
def calculate_aqi_pm25 (pm25 : ℚ) : ℤ :=
  if pm25 ≤ 12 then pythonRound ((50/12) * pm25)
  else if pm25 ≤ 35.4 then pythonRound ((49/23.3) * (pm25 - 12.1) + 51)
  else if pm25 ≤ 55.4 then pythonRound ((49/19.9) * (pm25 - 35.5) + 101)
  else 150

/-! ## Series Conditioner (src/app.py, show_future, lines 261-292)

A raw store row: timestamp and AQI after `pd.to_datetime(..., errors='coerce')`
and `pd.to_numeric(..., errors='coerce')`; `none` models a coercion failure
(NaT / NaN).  Timestamps are integer minutes. -/

structure RawRow where
  t : Option ℤ
  aqi : Option ℚ
deriving DecidableEq

/-- `df.dropna(subset=[t_col, 'aqi'])`: keep rows where both coercions succeeded. -/
def cleanRows (rows : List RawRow) : List (ℤ × ℚ) :=
  rows.filterMap fun r => r.t.bind fun t => r.aqi.map fun a => (t, a)

/-- Insert a row into a list sorted by timestamp, after all rows with a
timestamp less than or equal to it. -/
def insertByTime (x : ℤ × ℚ) : List (ℤ × ℚ) → List (ℤ × ℚ)
  | [] => [x]
  | y :: ys => if y.1 ≤ x.1 then y :: insertByTime x ys else x :: y :: ys

/-- `df.sort_values(t_col)`: ascending sort by timestamp. -/
def sortRows (l : List (ℤ × ℚ)) : List (ℤ × ℚ) :=
  l.foldl (fun acc x => insertByTime x acc) []

/-- Helper for `dedupRows`: drop rows whose timestamp was already seen. -/
def dedupRowsAux : List ℤ → List (ℤ × ℚ) → List (ℤ × ℚ)
  | _, [] => []
  | seen, x :: xs =>
    if x.1 ∈ seen then dedupRowsAux seen xs
    else x :: dedupRowsAux (x.1 :: seen) xs

/-- `df.drop_duplicates(subset=[t_col])`: keep the first row of each timestamp. -/
def dedupRows (l : List (ℤ × ℚ)) : List (ℤ × ℚ) := dedupRowsAux [] l

/-- `df[t_col].max()` (`none` on an empty frame). -/
def maxTime (l : List (ℤ × ℚ)) : Option ℤ := (l.map Prod.fst).max?

/-- Gap policy: `cutoff_time = df[t_col].max() - timedelta(hours=2)`;
`df = df[df[t_col] > cutoff_time]`. -/
def gapFilter (l : List (ℤ × ℚ)) : List (ℤ × ℚ) :=
  match maxTime l with
  | none => []
  | some m => l.filter fun r => m - 120 < r.1

/-- The cleaned, sorted, deduplicated, gap-filtered frame fed to `resample`. -/
def prepRows (rows : List RawRow) : List (ℤ × ℚ) :=
  gapFilter (dedupRows (sortRows (cleanRows rows)))

/-- `resample('10T')` bucket label: timestamp floored to a 10-minute boundary. -/
def bucket (t : ℤ) : ℤ := 10 * (t / 10)

/-- The uniform 10-minute grid of bucket labels spanned by the frame. -/
def gridTimes (l : List (ℤ × ℚ)) : List ℤ :=
  match (l.map fun r => bucket r.1).min?, (l.map fun r => bucket r.1).max? with
  | some lo, some hi => (List.range ((hi - lo).toNat / 10 + 1)).map fun i : ℕ => lo + 10 * (i : ℤ)
  | _, _ => []

/-- `.mean()` of the rows falling in bucket `b` (`none` when the bucket is empty). -/
def bucketMean (l : List (ℤ × ℚ)) (b : ℤ) : Option ℚ :=
  match (l.filter fun r => bucket r.1 = b).map Prod.snd with
  | [] => none
  | xs => some (xs.sum / (xs.length : ℚ))

/-- Nearest populated bucket at or below position `i`. -/
def findPrev (vs : List (Option ℚ)) : ℕ → Option (ℕ × ℚ)
  | 0 => match vs.getD 0 none with
    | some q => some (0, q)
    | none => none
  | i + 1 => match vs.getD (i + 1) none with
    | some q => some (i + 1, q)
    | none => findPrev vs i

/-- Helper for `findNext`: scan upward with explicit fuel. -/
def findNextAux (vs : List (Option ℚ)) : ℕ → ℕ → Option (ℕ × ℚ)
  | 0, _ => none
  | fuel + 1, i => match vs.getD i none with
    | some q => some (i, q)
    | none => findNextAux vs fuel (i + 1)

/-- Nearest populated bucket at or above position `i`. -/
def findNext (vs : List (Option ℚ)) (i : ℕ) : Option (ℕ × ℚ) :=
  findNextAux vs (vs.length - i) i

/-- `.interpolate()` at position `i`: populated buckets keep their mean; an
empty bucket takes the linear interpolation of its nearest populated
neighbours; an empty bucket after the last populated one keeps the last
value.  (The branches with no populated bucket below `i` are unreachable:
the first grid bucket always contains the earliest surviving row.) -/
def interpVal (vs : List (Option ℚ)) (i : ℕ) : ℚ :=
  match vs.getD i none with
  | some q => q
  | none =>
    match findPrev vs i, findNext vs i with
    | some (j, a), some (k, b) => a + (b - a) * (((i : ℚ) - j) / ((k : ℚ) - j))
    | some (_, a), none => a
    | none, some (_, b) => b
    | none, none => 0

/-- The interpolated value column. -/
def interpVals (vs : List (Option ℚ)) : List ℚ :=
  (List.range vs.length).map fun i => interpVal vs i

/-- `df.resample('10T').mean(numeric_only=True).interpolate().reset_index()`:
the conditioned 10-minute series as (bucket label, AQI) pairs. -/
def resample10 (l : List (ℤ × ℚ)) : List (ℤ × ℚ) :=
  (gridTimes l).zip (interpVals ((gridTimes l).map fun b => bucketMean l b))

/-- The full conditioning stage: raw store rows to the 10-minute series. -/
def conditionRows (rows : List RawRow) : List (ℤ × ℚ) :=
  resample10 (prepRows rows)

/-! ## Feature Builder (src/app.py, show_future, lines 294-312) -/

/-- Mean of a list of rationals (`.mean()`); `0/0 = 0` on the empty list,
which is unreachable in the pipeline (the guard requires 4 points). -/
def meanList (xs : List ℚ) : ℚ := xs.sum / (xs.length : ℚ)

/-- The static lag / rolling features. -/
structure Features where
  lag1 : ℚ
  lag2 : ℚ
  lag3 : ℚ
  lag6 : ℚ
  rolling : ℚ
deriving DecidableEq

/-- `df_10min.iloc[-i]['aqi']` (AQI `i` points from the end), defaulting to 0
out of range (each use is guarded by a length test, as in the source). -/
def ilocAqi (g : List (ℤ × ℚ)) (i : ℕ) : ℚ :=
  ((g.getD (g.length - i) (0, 0)).2)

/-- Lines 301-311: lag features with cascading cold-start backfill, and the
rolling mean over `iloc[-3:]` (the last up-to-3 grid points). -/
def featurize (g : List (ℤ × ℚ)) : Features :=
  let lag1 := ilocAqi g 1
  let lag2 := if 1 < g.length then ilocAqi g 2 else lag1
  let lag3 := if 2 < g.length then ilocAqi g 3 else lag2
  let lag6 := if 5 < g.length then ilocAqi g 6 else lag3
  let rolling := meanList ((g.drop (g.length - 3)).map Prod.snd)
  ⟨lag1, lag2, lag3, lag6, rolling⟩

/-! ## Anchored Forecaster (src/app.py, show_future, lines 294-362) -/

/-- Hour-of-day of a timestamp in minutes (`future_time.hour`). -/
def hourOf (t : ℤ) : ℤ := t / 60 % 24

/-- Minute-of-hour of a timestamp in minutes (`future_time.minute`). -/
def minuteOf (t : ℤ) : ℤ := t % 60

/-- Zero-padded two-digit rendering, as in `strftime`. -/
def pad2 (n : ℤ) : String := if n < 10 then "0" ++ toString n else toString n

/-- `future_time.strftime("%H:%M")`. -/
def fmtHHMM (t : ℤ) : String := pad2 (hourOf t) ++ ":" ++ pad2 (minuteOf t)

/-- `df_10min.iloc[-1][t_col]`: the last grid timestamp. -/
def lastTime (g : List (ℤ × ℚ)) : ℤ := (g.getLastD (0, 0)).1

/-- `float(last_known['aqi'])`: the last observed real AQI. -/
def lastAqi (g : List (ℤ × ℚ)) : ℚ := (g.getLastD (0, 0)).2

/-- One row of model input: hour/minute of the step's future time plus the
static lag/rolling features (the schema of `current_input`). -/
structure FeatRow where
  hour : ℤ
  minute : ℤ
  lag1 : ℚ
  lag2 : ℚ
  lag3 : ℚ
  lag6 : ℚ
  rolling : ℚ
deriving DecidableEq

/-- The model ensemble `model_suite`: for each step 1..6 a deterministic
regressor from a feature row to a scalar AQI estimate. -/
def Models : Type := ℕ → FeatRow → ℚ

/-- The input row built for a given step (`hour`/`minute` of
`last_time + 10*step` minutes, static features otherwise). -/
def stepRow (g : List (ℤ × ℚ)) (step : ℕ) : FeatRow :=
  ⟨hourOf (lastTime g + 10 * (step : ℤ)), minuteOf (lastTime g + 10 * (step : ℤ)),
   (featurize g).lag1, (featurize g).lag2, (featurize g).lag3, (featurize g).lag6,
   (featurize g).rolling⟩

/-- One emitted forecast row: `{"Time": ..., "Forecast AQI": ...}`. -/
structure ForecastPoint where
  time : String
  forecast_aqi : ℚ
deriving DecidableEq, Inhabited

/-- Loop body for one step: raw model output, plus the anchoring offset,
clamped at a floor of 0, rounded to one decimal, with the formatted time. -/
def forecastPoint (models : Models) (g : List (ℤ × ℚ)) (biasOffset : ℚ) (step : ℕ) :
    ForecastPoint :=
  let rawPred := models step (stepRow g step)
  let corrected := rawPred + biasOffset
  let clamped := if corrected < 0 then 0 else corrected
  ⟨fmtHHMM (lastTime g + 10 * (step : ℤ)), round1 clamped⟩

/-- Lines 317-362: predict step 1 to fix `bias_offset = current_real_aqi -
raw_pred_t1`, then emit the six anchored forecast points in step order. -/
def forecastPoints (models : Models) (g : List (ℤ × ℚ)) : List ForecastPoint :=
  let rawPredT1 := models 1 (stepRow g 1)
  let biasOffset := lastAqi g - rawPredT1
  (List.range 6).map fun k => forecastPoint models g biasOffset (k + 1)

/-! ## Pipeline entry point (src/app.py, show_future, lines 240-362) -/

/-- The on-disk state of `aqi_six_models.joblib`. -/
inductive Artifact where
  | missing
  | corrupt
  | ok (m : Models)

/-- A Python exception escaping `joblib.load`. -/
inductive PyError where
  | fileNotFound
  | unpicklingError
deriving DecidableEq

/-- `joblib.load(MODEL_FILE)`: the loaded ensemble or the raised exception. -/
def joblibLoad : Artifact → Except PyError Models
  | .missing => .error .fileNotFound
  | .corrupt => .error .unpicklingError
  | .ok m => .ok m

/-- The structured outcomes `show_future` can surface to the user. -/
inductive PipeResult where
  | configError
  | waiting
  | coldStart (waitMinutes : ℤ)
  | forecast (pts : List ForecastPoint)
deriving DecidableEq

/-- `show_future` behind the button: load the ensemble (catching only
`FileNotFoundError`), fetch rows, condition, guard the cold start with the
wait hint `40 - len(df_10min)*10`, else forecast.  `Except.error` models an
exception propagating out of the function uncaught. -/
def show_future (a : Artifact) (rows : List RawRow) : Except PyError PipeResult :=
  match joblibLoad a with
  | .error .fileNotFound => .ok .configError
  | .error e => .error e
  | .ok models =>
    if rows = [] then .ok .waiting
    else
      let df10 := conditionRows rows
      if df10.length < 4 then .ok (.coldStart (40 - 10 * (df10.length : ℤ)))
      else .ok (.forecast (forecastPoints models df10))

/-! ## Firmware hourly accumulator (src/devices/main.py, lines 76-168) -/

/-- One iteration's sensor readings. -/
structure Sample where
  raw : ℤ
  temp : ℚ
  hum : ℚ
deriving DecidableEq

/-- `aqi = calculate_aqi_pm25(mq135_to_pm25(raw_air))`. -/
def sampleAqi (s : Sample) : ℤ := calculate_aqi_pm25 (mq135_to_pm25 s.raw)

/-- The global accumulator variables. -/
structure AccState where
  sum_mq135 : ℤ
  sum_temp : ℚ
  sum_hum : ℚ
  sum_aqi : ℤ
  sample_count : ℕ
  last_hourly_upload : ℤ
deriving DecidableEq

/-- The zeroed accumulator with a given clock value. -/
def initAcc (t : ℤ) : AccState :=
  ⟨0, 0, 0, 0, 0, t⟩

/-- Lines 108-113: accumulate one sample. -/
def accumulate (st : AccState) (s : Sample) : AccState :=
  { st with
    sum_mq135 := st.sum_mq135 + s.raw
    sum_temp := st.sum_temp + s.temp
    sum_hum := st.sum_hum + s.hum
    sum_aqi := st.sum_aqi + sampleAqi s
    sample_count := st.sample_count + 1 }

/-- The hourly history record `payload_history`. -/
structure HistoryPayload where
  mq135 : ℤ
  temperature : ℚ
  humidity : ℚ
  aqi : ℤ
deriving DecidableEq

/-- Lines 145-150: the uploaded means (`int` truncation for mq135/aqi,
`round(·, 2)` for temperature/humidity). -/
def mkHistoryPayload (st : AccState) : HistoryPayload :=
  ⟨pyInt ((st.sum_mq135 : ℚ) / (st.sample_count : ℚ)),
   pyRound2 (st.sum_temp / (st.sample_count : ℚ)),
   pyRound2 (st.sum_hum / (st.sample_count : ℚ)),
   pyInt ((st.sum_aqi : ℚ) / (st.sample_count : ℚ))⟩

/-- One pass of the main loop restricted to the accumulator logic: read and
accumulate a sample, then on the hourly check (`tCheck` is `time()` at the
check, `tReset` is `time()` at the reset) emit the history payload when
`sample_count > 0` and zero all sums and the count. -/
def loopIter (st : AccState) (s : Sample) (tCheck tReset : ℤ) :
    AccState × Option HistoryPayload :=
  let st1 := accumulate st s
  if 3600 ≤ tCheck - st1.last_hourly_upload then
    (initAcc tReset, if 0 < st1.sample_count then some (mkHistoryPayload st1) else none)
  else
    (st1, none)

/-! ## Helper lemmas -/

/-- Integer bracketing of `pythonRound` from strict rational bounds. -/
theorem pythonRound_int_bounds (v : ℚ) (lo hi : ℤ)
    (hlo : (lo : ℚ) - 1 < v - 1/2) (hhi : v + 1/2 < (hi : ℚ) + 1) :
    lo ≤ pythonRound v ∧ pythonRound v ≤ hi := by
  have h1 := pythonRound_ge v
  have h2 := pythonRound_le v
  have hl : ((lo : ℤ) : ℚ) - 1 < (pythonRound v : ℚ) := by linarith
  have hh : ((pythonRound v : ℤ) : ℚ) < (hi : ℚ) + 1 := by linarith
  have hl' : lo - 1 < pythonRound v := by exact_mod_cast hl
  have hh' : pythonRound v < hi + 1 := by exact_mod_cast hh
  omega

/-- Claim C9: for every raw ADC reading in [0, 4095] the composed firmware
conversion `calculate_aqi_pm25(mq135_to_pm25(raw))` is an integer AQI in
[0, 150], and every PM2.5 estimate above 55.4 yields exactly 150, so the
device never reports an AQI in the bands above 150. -/
theorem device_aqi_bounded :
    (∀ raw : ℤ, 0 ≤ raw → raw ≤ 4095 →
      0 ≤ calculate_aqi_pm25 (mq135_to_pm25 raw) ∧
      calculate_aqi_pm25 (mq135_to_pm25 raw) ≤ 150) ∧
    (∀ pm25 : ℚ, 55.4 < pm25 → calculate_aqi_pm25 pm25 = 150) := by
  constructor
  · intro raw h0 h1
    have hq0 : (0 : ℚ) ≤ (raw : ℚ) := by exact_mod_cast h0
    have hq1 : (raw : ℚ) ≤ 4095 := by exact_mod_cast h1
    have hp0 : 0 ≤ mq135_to_pm25 raw := by
      unfold mq135_to_pm25
      have h : (0 : ℚ) ≤ ((raw : ℚ) - 0) / (4095 - 0) := div_nonneg (by linarith) (by norm_num)
      linarith
    have hp1 : mq135_to_pm25 raw ≤ 200 := by
      unfold mq135_to_pm25
      rw [div_mul_eq_mul_div, div_le_iff₀ (by norm_num : (0:ℚ) < 4095 - 0)]
      nlinarith
    set p := mq135_to_pm25 raw with hp
    unfold calculate_aqi_pm25
    split_ifs with hb1 hb2 hb3
    · exact pythonRound_int_bounds _ 0 150 (by push_cast; linarith) (by push_cast; linarith)
    · push_neg at hb1
      exact pythonRound_int_bounds _ 0 150 (by push_cast; linarith) (by push_cast; linarith)
    · push_neg at hb2
      exact pythonRound_int_bounds _ 0 150 (by push_cast; linarith) (by push_cast; linarith)
    · exact ⟨by norm_num, le_refl _⟩
  · intro pm25 h
    unfold calculate_aqi_pm25
    split_ifs with hb1 hb2 hb3
    · linarith
    · linarith
    · linarith
    · rfl

/-- Witness for C9 at the midpoint reading 2048 and at PM2.5 = 100. -/
theorem device_aqi_bounded_witness :
    (0 ≤ calculate_aqi_pm25 (mq135_to_pm25 2048) ∧
      calculate_aqi_pm25 (mq135_to_pm25 2048) ≤ 150) ∧
    calculate_aqi_pm25 100 = 150 :=
  ⟨device_aqi_bounded.1 2048 (by norm_num) (by norm_num),
   device_aqi_bounded.2 100 (by norm_num)⟩

/-- The accumulator after folding a batch of samples: componentwise sums. -/
theorem foldl_accumulate_spec (L : List Sample) (st : AccState) :
    L.foldl accumulate st =
      ⟨st.sum_mq135 + (L.map Sample.raw).sum,
       st.sum_temp + (L.map Sample.temp).sum,
       st.sum_hum + (L.map Sample.hum).sum,
       st.sum_aqi + (L.map sampleAqi).sum,
       st.sample_count + L.length,
       st.last_hourly_upload⟩ := by
  induction L generalizing st with
  | nil => simp
  | cons s L ih =>
    rw [List.foldl_cons, ih]
    simp only [accumulate, List.map_cons, List.sum_cons, List.length_cons, AccState.mk.injEq]
    refine ⟨by ring, by ring, by ring, by ring, by omega, trivial⟩

/-- Claim C10: when the hourly flush fires, the uploaded record holds the
truncated / 2-decimal means of exactly the samples accumulated since the
previous flush, and the post-flush state is the zeroed accumulator, so no
sample is counted in two consecutive hourly records. -/
theorem hourly_flush_means (L : List Sample) (s : Sample) (t0 tCheck tReset : ℤ)
    (hfire : 3600 ≤ tCheck - t0) :
    loopIter (L.foldl accumulate (initAcc t0)) s tCheck tReset =
      (initAcc tReset,
        some ⟨pyInt (((((L ++ [s]).map Sample.raw).sum : ℤ) : ℚ) / (((L ++ [s]).length : ℕ) : ℚ)),
              pyRound2 ((((L ++ [s]).map Sample.temp).sum) / (((L ++ [s]).length : ℕ) : ℚ)),
              pyRound2 ((((L ++ [s]).map Sample.hum).sum) / (((L ++ [s]).length : ℕ) : ℚ)),
              pyInt (((((L ++ [s]).map sampleAqi).sum : ℤ) : ℚ) / (((L ++ [s]).length : ℕ) : ℚ))⟩) := by
  rw [loopIter, foldl_accumulate_spec]
  simp only [accumulate, initAcc]
  rw [if_pos (by simpa using hfire)]
  rw [if_pos (by simp)]
  simp only [mkHistoryPayload, List.map_append, List.sum_append, List.length_append,
    List.map_cons, List.map_nil, List.sum_cons, List.sum_nil, List.length_cons,
    List.length_nil]
  norm_num


set_option maxRecDepth 20000 in
/-- Witness for C10: two samples, flush at t = 3600 with reset clock 3601. -/
theorem hourly_flush_means_witness :
    loopIter (([⟨100, 25, 50⟩] : List Sample).foldl accumulate (initAcc 0))
        ⟨200, 26, 51⟩ 3600 3601 =
      (initAcc 3601, some ⟨150, 51/2, 101/2, 30⟩) := by
  rw [hourly_flush_means [⟨100, 25, 50⟩] ⟨200, 26, 51⟩ 0 3600 3601 (by norm_num)]
  congr 1
  congr 1
  congr 1
  · with_unfolding_all decide
  · with_unfolding_all decide
  · with_unfolding_all decide
  · with_unfolding_all decide

/-! ## Concrete inputs used by witnesses and counterexamples -/

/-- A deterministic ensemble that always predicts 124/3 (= 41.333...). -/
def constModels : Models := fun _ _ => 124/3

/-- Six readings whose last 10-minute bucket averages to 124/3: minutes
600 (aqi 40), 610 (41), 620 (42), 630/631/632 (41, 41, 42). -/
def rows6 : List RawRow :=
  [⟨some 600, some 40⟩, ⟨some 610, some 41⟩, ⟨some 620, some 42⟩,
   ⟨some 630, some 41⟩, ⟨some 631, some 41⟩, ⟨some 632, some 42⟩]

/-- The spec scenario: 10:00 (aqi 40), 10:05 (44), 10:10 (50), 10:15 (52),
as minutes since midnight. -/
def rowsC6 : List RawRow :=
  [⟨some 600, some 40⟩, ⟨some 605, some 44⟩, ⟨some 610, some 50⟩, ⟨some 615, some 52⟩]

/-- A batch spanning more than two hours whose maximum timestamp (minute
723) is not 10-minute aligned. -/
def rowsC3 : List RawRow :=
  [⟨some 480, some 10⟩, ⟨some 604, some 20⟩, ⟨some 723, some 30⟩]

/-- Three aligned readings: exactly three resampled points. -/
def rows3 : List RawRow :=
  [⟨some 600, some 40⟩, ⟨some 610, some 44⟩, ⟨some 620, some 50⟩]

/-! ## Claim C1 -/

/-- Counterexample to C1 as stated: with the constant ensemble 124/3 and the
series conditioned from `rows6`, the step-1 raw prediction equals the last
observed AQI (124/3) and the series is accepted (4 points), yet the first
emitted forecast value is `round(124/3, 1) = 41.3`, not 124/3: the one-decimal
display rounding prevents exact reproduction. -/
theorem anchored_first_point_counterexample :
    constModels 1 (stepRow (conditionRows rows6) 1) = lastAqi (conditionRows rows6) ∧
    4 ≤ (conditionRows rows6).length ∧
    (forecastPoints constModels (conditionRows rows6)).headI.forecast_aqi ≠
      lastAqi (conditionRows rows6) := by
  refine ⟨by with_unfolding_all decide, by with_unfolding_all decide, ?_⟩
  with_unfolding_all decide

/-- Claim C1 (amended): with zero step-1 model error the first emitted
forecast value is the last observed real AQI clamped at 0 and rounded to
one decimal (the pre-rounding corrected value is exactly the last AQI). -/
theorem anchored_first_point (models : Models) (g : List (ℤ × ℚ))
    (h4 : 4 ≤ g.length) (h : models 1 (stepRow g 1) = lastAqi g) :
    (forecastPoints models g).headI.forecast_aqi =
      round1 (if lastAqi g < 0 then 0 else lastAqi g) := by
  have h0 : (forecastPoints models g).headI =
      forecastPoint models g (lastAqi g - models 1 (stepRow g 1)) 1 := rfl
  rw [h0]
  unfold forecastPoint
  simp only [h]
  have e : lastAqi g + (lastAqi g - lastAqi g) = lastAqi g := by ring
  rw [e]

/-- Witness for the amended C1 at `rows6` with the constant ensemble. -/
theorem anchored_first_point_witness :
    (forecastPoints constModels (conditionRows rows6)).headI.forecast_aqi =
      round1 (if lastAqi (conditionRows rows6) < 0 then 0
              else lastAqi (conditionRows rows6)) :=
  anchored_first_point constModels (conditionRows rows6)
    (by with_unfolding_all decide) (by with_unfolding_all decide)

/-! ## Claim C2 -/

/-- Claim C2: every emitted forecast point is nonnegative — the bias-corrected
value is clamped at a floor of 0 before the one-decimal rounding, and the
rounding preserves nonnegativity. -/
theorem forecast_points_nonneg (models : Models) (g : List (ℤ × ℚ))
    (p : ForecastPoint) (hp : p ∈ forecastPoints models g) :
    0 ≤ p.forecast_aqi := by
  unfold forecastPoints at hp
  simp only [List.mem_map] at hp
  obtain ⟨k, _, rfl⟩ := hp
  unfold forecastPoint
  apply round1_nonneg
  split_ifs with hc
  · exact le_refl 0
  · linarith [not_lt.mp hc]

/-- Witness for C2: first point of the `rows6` forecast under the constant
ensemble. -/
theorem forecast_points_nonneg_witness :
    0 ≤ (forecastPoints constModels (conditionRows rows6)).headI.forecast_aqi :=
  forecast_points_nonneg constModels (conditionRows rows6) _
    (by with_unfolding_all decide)

/-! ## Claim C8 -/

/-- Claim C8: the forecaster emits exactly six points; the point at position
`i` (step `i+1`) carries the wall-clock label `HH:MM` of
`last_time + 10*(i+1)` minutes, and its value is a multiple of one tenth
(rounded to one decimal place). -/
theorem forecast_six_points (models : Models) (g : List (ℤ × ℚ)) :
    (forecastPoints models g).length = 6 ∧
    ∀ i (h : i < (forecastPoints models g).length),
      ((forecastPoints models g).get ⟨i, h⟩).time =
        fmtHHMM (lastTime g + 10 * ((i : ℤ) + 1)) ∧
      ∃ n : ℤ, ((forecastPoints models g).get ⟨i, h⟩).forecast_aqi = (n : ℚ) / 10 := by
  have hlen : (forecastPoints models g).length = 6 := by
    unfold forecastPoints
    simp
  refine ⟨hlen, ?_⟩
  intro i h
  have hi : i < 6 := hlen ▸ h
  have hg : (forecastPoints models g).get ⟨i, h⟩ =
      forecastPoint models g (lastAqi g - models 1 (stepRow g 1)) (i + 1) := by
    unfold forecastPoints
    rw [List.get_eq_getElem]
    simp
  rw [hg]
  unfold forecastPoint
  constructor
  · have : ((i + 1 : ℕ) : ℤ) = (i : ℤ) + 1 := by push_cast; ring
    rw [this]
  · exact ⟨_, rfl⟩

/-- Witness for C8: the `rows6` forecast has six points and its first point
is stamped 10:40 (minute 640). -/
theorem forecast_six_points_witness :
    (forecastPoints constModels (conditionRows rows6)).length = 6 ∧
    ((forecastPoints constModels (conditionRows rows6)).headI.time = fmtHHMM 640) := by
  have h := forecast_six_points constModels (conditionRows rows6)
  refine ⟨h.1, ?_⟩
  have h0 : 0 < (forecastPoints constModels (conditionRows rows6)).length := by
    rw [h.1]
    norm_num
  have hfirst := (h.2 0 h0).1
  have hh : ∀ (xs : List ForecastPoint) (hx : 0 < xs.length), xs.headI = xs.get ⟨0, hx⟩ := by
    intro xs hx
    cases xs with
    | nil => simp at hx
    | cons a l => rfl
  rw [hh _ h0, hfirst]
  have ht : lastTime (conditionRows rows6) + 10 * (((0 : ℕ) : ℤ) + 1) = 640 := by
    with_unfolding_all decide
  rw [ht]

/-! ## Claim C5 -/

/-- The value column of the resampled frame has the same length as the grid. -/
theorem interpVals_length (vs : List (Option ℚ)) : (interpVals vs).length = vs.length := by
  unfold interpVals
  simp

/-- The timestamps of the resampled frame are exactly the grid labels. -/
theorem resample10_map_fst (l : List (ℤ × ℚ)) :
    (resample10 l).map Prod.fst = gridTimes l := by
  unfold resample10
  apply List.map_fst_zip
  rw [interpVals_length, List.length_map]

/-- An arithmetic 10-minute grid is a chain with step exactly 10. -/
theorem chain_step10 (n : ℕ) : ∀ lo : ℤ,
    List.Chain' (fun s t => t = s + 10) ((List.range n).map fun i : ℕ => lo + 10 * (i : ℤ)) := by
  induction n with
  | zero => intro lo; simp
  | succ m ih =>
    intro lo
    rw [List.range_succ_eq_map, List.map_cons, List.map_map]
    have hm : (List.range m).map ((fun i : ℕ => lo + 10 * (i : ℤ)) ∘ Nat.succ) =
        (List.range m).map fun i : ℕ => (lo + 10) + 10 * (i : ℤ) := by
      apply List.map_congr_left
      intro a _
      simp only [Function.comp_apply]
      push_cast
      ring
    rw [hm, List.chain'_cons']
    constructor
    · intro b hb
      cases m with
      | zero => simp at hb
      | succ k =>
        rw [List.range_succ_eq_map, List.map_cons, List.head?_cons] at hb
        simp only [Option.mem_def, Option.some.injEq] at hb
        subst hb
        push_cast
        ring
    · exact ih (lo + 10)

/-- Claim C5: for every input batch the conditioned series has strictly
increasing timestamps spaced exactly 10 minutes apart (hence no duplicate
timestamps). -/
theorem conditioned_grid_spacing (rows : List RawRow) :
    List.Chain' (fun s t => t = s + 10) ((conditionRows rows).map Prod.fst) := by
  unfold conditionRows
  rw [resample10_map_fst]
  unfold gridTimes
  split
  · apply chain_step10
  · simp

/-! ## Claim C3 -/

/-- A 10-minute bucket label is within 9 minutes below its timestamp. -/
theorem bucket_bounds (t : ℤ) : t - 9 ≤ bucket t ∧ bucket t ≤ t := by
  unfold bucket
  have h := Int.ediv_add_emod t 10
  have h2 := Int.emod_nonneg t (by norm_num : (10:ℤ) ≠ 0)
  have h3 := Int.emod_lt_of_pos t (by norm_num : (0:ℤ) < 10)
  omega

/-- Every grid label is at least the minimum bucket of the frame. -/
theorem gridTimes_ge_min (l : List (ℤ × ℚ)) (b : ℤ) (hb : b ∈ gridTimes l) :
    ∃ lo, (l.map fun r => bucket r.1).min? = some lo ∧ lo ≤ b := by
  unfold gridTimes at hb
  rcases hmin : (l.map fun r => bucket r.1).min? with _ | lo
  · rw [hmin] at hb
    simp at hb
  · rw [hmin] at hb
    rcases hmax : (l.map fun r => bucket r.1).max? with _ | hi
    · rw [hmax] at hb
      simp at hb
    · rw [hmax] at hb
      simp only [List.mem_map, List.mem_range] at hb
      obtain ⟨i, _, rfl⟩ := hb
      refine ⟨lo, hmin, ?_⟩
      have : (0 : ℤ) ≤ (i : ℤ) := Int.natCast_nonneg i
      linarith

set_option maxRecDepth 40000 in
/-- Counterexample to C3 as stated: in `rowsC3` the timestamp span is 243
minutes (> 2 hours) and the maximum surviving timestamp is minute 723, so
the cutoff is minute 603; yet the conditioned series contains the grid
point at minute 600 < 603, because `resample` floors the surviving row at
minute 604 to the bucket label 600. -/
theorem gap_cutoff_counterexample :
    (⟨some 480, some 10⟩ : RawRow) ∈ rowsC3 ∧
    maxTime (dedupRows (sortRows (cleanRows rowsC3))) = some 723 ∧
    (723 : ℤ) - 480 > 120 ∧
    (600, 20) ∈ conditionRows rowsC3 ∧
    (600 : ℤ) < 723 - 120 := by
  refine ⟨by with_unfolding_all decide, by with_unfolding_all decide, by norm_num,
    by with_unfolding_all decide, by norm_num⟩

/-- Claim C3 (amended): rows at or before `cutoff = max - 2h` are discarded
(every surviving row is strictly newer than the cutoff), and every point of
the conditioned series is strictly newer than `cutoff - 10` minutes — a grid
label may precede the cutoff by the sub-bucket offset of the earliest
surviving row, but never by 10 minutes or more. -/
theorem gap_cutoff (rows : List RawRow) (m : ℤ)
    (hm : maxTime (dedupRows (sortRows (cleanRows rows))) = some m) :
    (∀ r ∈ prepRows rows, m - 120 < r.1) ∧
    (∀ p ∈ conditionRows rows, m - 120 - 10 < p.1) := by
  have hfilter : ∀ r ∈ prepRows rows, m - 120 < r.1 := by
    intro r hr
    unfold prepRows gapFilter at hr
    rw [hm] at hr
    simp only [List.mem_filter, decide_eq_true_eq] at hr
    exact hr.2
  refine ⟨hfilter, ?_⟩
  intro p hp
  unfold conditionRows resample10 at hp
  obtain ⟨a, b⟩ := p
  have hp1 : a ∈ gridTimes (prepRows rows) := (List.of_mem_zip hp).1
  obtain ⟨lo, hlo, hle⟩ := gridTimes_ge_min _ _ hp1
  have hlo_mem := List.min?_mem (fun x y => min_choice x y) hlo
  simp only [List.mem_map] at hlo_mem
  obtain ⟨r, hr_mem, hr_eq⟩ := hlo_mem
  have h1 := hfilter r hr_mem
  have h2 := (bucket_bounds r.1).1
  simp only []
  omega

set_option maxRecDepth 40000 in
/-- Witness for the amended C3 at `rowsC3` (cutoff 603: the first
conditioned point sits at minute 600 > 593). -/
theorem gap_cutoff_witness :
    (723 : ℤ) - 120 - 10 < ((conditionRows rowsC3).headI).1 :=
  (gap_cutoff rowsC3 723 (by with_unfolding_all decide)).2
    (conditionRows rowsC3).headI (by with_unfolding_all decide)

/-! ## Claim C6 -/

set_option maxRecDepth 40000 in
/-- Counterexample to C6 as stated: on the two-point series resampled from
the 10:00/10:05/10:10/10:15 scenario, the feature code sets
`aqi_lag_2 = df_10min.iloc[-2]` (the guard `len > 1` holds with 2 points),
which is 42, not `aqi_lag_1 = 51` as claimed. -/
theorem scenario_features_counterexample :
    conditionRows rowsC6 = [(600, 42), (610, 51)] ∧
    (featurize (conditionRows rowsC6)).lag2 = 42 ∧
    (featurize (conditionRows rowsC6)).lag2 ≠ 51 := by
  refine ⟨by with_unfolding_all decide, by with_unfolding_all decide, ?_⟩
  with_unfolding_all decide

set_option maxRecDepth 40000 in
/-- Claim C6 (amended): the scenario resamples to the buckets
{10:00 : 42, 10:10 : 51}; on this 2-point series the feature builder sets
`aqi_lag_1 = 51`, `aqi_lag_2 = 42` (two points exist, so no fallback),
`aqi_lag_3 = aqi_lag_2 = 42`, `aqi_lag_6 = aqi_lag_3 = 42`, and
`rolling_mean_3 = mean(42, 51) = 46.5`. -/
theorem scenario_features :
    conditionRows rowsC6 = [(600, 42), (610, 51)] ∧
    featurize (conditionRows rowsC6) = ⟨51, 42, 42, 42, 93/2⟩ := by
  refine ⟨by with_unfolding_all decide, ?_⟩
  with_unfolding_all decide

/-! ## Claim C4 -/

/-- Claim C4: with fewer than 4 resampled points (and a nonempty store
fetch) the pipeline reports a cold start with the wait hint
`(4 - points) * 10` minutes instead of a forecast. -/
theorem cold_start_wait (m : Models) (rows : List RawRow) (hne : rows ≠ [])
    (hlen : (conditionRows rows).length < 4) :
    show_future (.ok m) rows =
      .ok (.coldStart ((4 - ((conditionRows rows).length : ℤ)) * 10)) := by
  have hred : show_future (.ok m) rows =
      (if rows = [] then Except.ok PipeResult.waiting
       else if (conditionRows rows).length < 4 then
         Except.ok (PipeResult.coldStart (40 - 10 * ((conditionRows rows).length : ℤ)))
       else Except.ok (PipeResult.forecast (forecastPoints m (conditionRows rows)))) := rfl
  rw [hred, if_neg hne, if_pos hlen]
  have he : (40 : ℤ) - 10 * ((conditionRows rows).length : ℤ) =
      (4 - ((conditionRows rows).length : ℤ)) * 10 := by ring
  rw [he]

set_option maxRecDepth 40000 in
/-- Witness for C4: three resampled points give a cold start with a
10-minute wait estimate. -/
theorem cold_start_wait_witness :
    show_future (.ok constModels) rows3 = .ok (.coldStart 10) := by
  rw [cold_start_wait constModels rows3 (by with_unfolding_all decide)
    (by with_unfolding_all decide)]
  congr 1

/-! ## Claim C7 -/

/-- Counterexample to C7 as stated: the source catches only
`FileNotFoundError` around `joblib.load`, so a corrupt (present but
unreadable) model artifact raises an exception that propagates uncaught
past the pipeline entry point instead of becoming a structured result. -/
theorem failure_boundary_counterexample :
    show_future .corrupt [] = .error .unpicklingError := rfl

/-- Claim C7 (amended): a missing ensemble artifact fails fast into a
configuration error before any forecast work (no forecast emitted); an
empty store fetch yields the waiting result; a nonempty fetch whose rows
all fail timestamp/AQI coercion yields the cold-start result with a
40-minute hint.  (A corrupt artifact, by contrast, escapes as an uncaught
exception — see the counterexample.) -/
theorem failure_boundary :
    (∀ rows, show_future .missing rows = .ok .configError) ∧
    (∀ m : Models, show_future (.ok m) [] = .ok .waiting) ∧
    (∀ (m : Models) (rows : List RawRow), rows ≠ [] →
      (∀ r ∈ rows, r.t = none ∨ r.aqi = none) →
      show_future (.ok m) rows = .ok (.coldStart 40)) := by
  refine ⟨fun rows => rfl, fun m => rfl, ?_⟩
  intro m rows hne hbad
  have hclean : cleanRows rows = [] := by
    unfold cleanRows
    rw [List.filterMap_eq_nil_iff]
    intro r hr
    rcases hbad r hr with h | h <;> rw [h] <;> simp
  have hcond : conditionRows rows = [] := by
    unfold conditionRows resample10 prepRows
    rw [hclean]
    rfl
  have hred : show_future (.ok m) rows =
      (if rows = [] then Except.ok PipeResult.waiting
       else if (conditionRows rows).length < 4 then
         Except.ok (PipeResult.coldStart (40 - 10 * ((conditionRows rows).length : ℤ)))
       else Except.ok (PipeResult.forecast (forecastPoints m (conditionRows rows)))) := rfl
  rw [hred, if_neg hne, hcond]
  norm_num

/-- Witness for the amended C7 at concrete inputs: missing artifact, empty
store, and a single row with an unparsable timestamp. -/
theorem failure_boundary_witness :
    show_future .missing [] = .ok .configError ∧
    show_future (.ok constModels) [] = .ok .waiting ∧
    show_future (.ok constModels) [⟨none, some 5⟩] = .ok (.coldStart 40) :=
  ⟨failure_boundary.1 [], failure_boundary.2.1 constModels,
   failure_boundary.2.2 constModels [⟨none, some 5⟩] (by decide) (by decide)⟩
